import Mathlib

/-!
Verification of the positional binary record codec of the AEIF dataset
toolkit (`ameisedataset/data/agent.py`) and of the image-save format
dispatch (`aeifdataset/utils/image_functions.py`), as a shallow embedding.

Bytes are modelled as `List Nat`.  Fallible decoding is modelled with
`Option`: a Python exception becomes `none`.  The leaf sensor classes and
the generic `serialize` / `deserialize` / `obj_to_bytes` / `obj_from_bytes`
helpers live in `ameisedataset.miscellaneous` and `ameisedataset.data`,
which are not part of the sources here; they are modelled from the spec's
leaf-codec contract (deterministic `encode`, and `decode` that consumes
exactly the bytes its own `encode` produced and returns the decoded value
together with the remaining bytes).
-/

namespace AEIF

abbrev Bytes := List Nat

/-- Leaf sensor value: camera frame (opaque payload). -/
structure Camera where
  data : Bytes
deriving DecidableEq, Repr

/-- Leaf sensor value: lidar scan (opaque payload). -/
structure Lidar where
  data : Bytes
deriving DecidableEq, Repr

/-- Leaf sensor value: IMU sample, carrying its device name. -/
structure IMU where
  name : Bytes
deriving DecidableEq, Repr

/-- Leaf sensor value: GNSS fix, carrying its device name. -/
structure GNSS where
  name : Bytes
deriving DecidableEq, Repr

/-- Leaf sensor value: odometry record (opaque payload). -/
structure Odometry where
  data : Bytes
deriving DecidableEq, Repr

/-- The `Camera()` default constructor. -/
def Camera.default : Camera := ⟨[]⟩

/-- The `Lidar()` default constructor. -/
def Lidar.default : Lidar := ⟨[]⟩

/-- The `Odometry()` default constructor. -/
def Odometry.default : Odometry := ⟨[]⟩

/-- ASCII bytes of the device name string passed to `GNSS` in
`Tower.__init__` of `agent.py`. -/
def nameC099F9P : Bytes := [67, 48, 57, 57, 45, 70, 57, 80]

/-- ASCII bytes of the device name string passed to `IMU` and `GNSS` in
`Vehicle.__init__` of `agent.py`. -/
def nameMicrostrain : Bytes :=
  [77, 105, 99, 114, 111, 115, 116, 114, 97, 105, 110, 32, 51, 68, 77, 95, 71, 81, 55]

/-- Modelled from the spec: the generic leaf serializer
(`ameisedataset.miscellaneous.serialize`, not under `src/`).  Each leaf
type gets a distinct tag byte followed by a length byte and the payload,
giving a deterministic, self-delimited encoding as the spec's leaf-codec
contract requires. -/
def serializeTagged (tag : Nat) (payload : Bytes) : Bytes :=
  tag :: payload.length :: payload

/-- Modelled from the spec: the generic leaf deserializer
(`ameisedataset.miscellaneous.deserialize`, not under `src/`).  Consumes
exactly the bytes `serializeTagged` produced for the expected tag and
returns the payload together with the remaining bytes; rejects a tag
mismatch or a truncated buffer (the spec's `LeafDecodeError` /
`TruncatedStreamError`). -/
def deserializeTagged (tag : Nat) (data : Bytes) : Option (Bytes × Bytes) :=
  match data with
  | t :: n :: rest => if t = tag ∧ n ≤ rest.length then some (rest.take n, rest.drop n) else none
  | _ => none

/-- `serialize(camera)` for a present `Camera` value. -/
def serializeCamera (c : Camera) : Bytes := serializeTagged 0 c.data

/-- `deserialize(data, Camera)`. -/
def deserializeCamera (data : Bytes) : Option (Camera × Bytes) :=
  (deserializeTagged 0 data).map fun p => (⟨p.1⟩, p.2)

/-- `serialize(lidar)` for a present `Lidar` value. -/
def serializeLidar (l : Lidar) : Bytes := serializeTagged 1 l.data

/-- `deserialize(data, Lidar)`. -/
def deserializeLidar (data : Bytes) : Option (Lidar × Bytes) :=
  (deserializeTagged 1 data).map fun p => (⟨p.1⟩, p.2)

/-- `serialize(imu)`. -/
def serializeIMU (i : IMU) : Bytes := serializeTagged 2 i.name

/-- `deserialize(data, IMU)`. -/
def deserializeIMU (data : Bytes) : Option (IMU × Bytes) :=
  (deserializeTagged 2 data).map fun p => (⟨p.1⟩, p.2)

/-- `serialize(gnss)`. -/
def serializeGNSS (g : GNSS) : Bytes := serializeTagged 3 g.name

/-- `deserialize(data, GNSS)`. -/
def deserializeGNSS (data : Bytes) : Option (GNSS × Bytes) :=
  (deserializeTagged 3 data).map fun p => (⟨p.1⟩, p.2)

/-- Modelled from the spec: `serialize` applied to an `Optional` camera
slot.  The source feeds `self.REAR` (possibly `None`) to the same generic
serializer; the spec leaves the `None` behaviour open and mandates a
decodable sentinel occupying the slot's position, modelled here as the
single byte 255 (no leaf tag uses it). -/
def serializeOptCamera : Option Camera → Bytes
  | some c => serializeCamera c
  | none => [255]

/-- Modelled from the spec: `serialize` applied to an `Optional` lidar
slot; sentinel byte 255 for the absent case, as for cameras. -/
def serializeOptLidar : Option Lidar → Bytes
  | some l => serializeLidar l
  | none => [255]

/-- Modelled from the spec: `obj_to_bytes` (pickle-style whole-object
serializer from `ameisedataset.miscellaneous`, not under `src/`), given
the same tagged self-delimited shape with its own tag. -/
def obj_to_bytes (o : Odometry) : Bytes := serializeTagged 4 o.data

/-- Modelled from the spec: `obj_from_bytes`, returning only the decoded
object (the source call site discards any remainder). -/
def obj_from_bytes (data : Bytes) : Option Odometry :=
  (deserializeTagged 4 data).map fun p => ⟨p.1⟩

/-- `VisionSensorsVeh`: the vehicle's camera group, field order as declared
in `agent.py` (`BACK_LEFT, FRONT_LEFT, STEREO_LEFT, STEREO_RIGHT,
FRONT_RIGHT, BACK_RIGHT, REAR`). -/
structure VisionSensorsVeh where
  BACK_LEFT : Camera
  FRONT_LEFT : Camera
  STEREO_LEFT : Camera
  STEREO_RIGHT : Camera
  FRONT_RIGHT : Camera
  BACK_RIGHT : Camera
  REAR : Option Camera
deriving DecidableEq, Repr

/-- `VisionSensorsVeh.__init__`: default cameras, `REAR = None`. -/
def VisionSensorsVeh.default : VisionSensorsVeh :=
  ⟨Camera.default, Camera.default, Camera.default, Camera.default,
   Camera.default, Camera.default, none⟩

/-- `VisionSensorsVeh.to_bytes`: `b''.join(serialize(camera) for camera in
[...])` over the declared field order. -/
def VisionSensorsVeh.to_bytes (r : VisionSensorsVeh) : Bytes :=
  List.flatten ([some r.BACK_LEFT, some r.FRONT_LEFT, some r.STEREO_LEFT, some r.STEREO_RIGHT,
    some r.FRONT_RIGHT, some r.BACK_RIGHT, r.REAR].map serializeOptCamera)

/-- `VisionSensorsVeh.from_bytes`: the source loops over the attribute list
and assigns `deserialize(data, Camera)[0]` to each attribute; `data` is
never re-bound, so all seven calls receive the same buffer.  `setattr` on
`REAR` stores the decoded camera, hence `some`. -/
def VisionSensorsVeh.from_bytes (data : Bytes) : Option VisionSensorsVeh :=
  match deserializeCamera data, deserializeCamera data, deserializeCamera data,
      deserializeCamera data, deserializeCamera data, deserializeCamera data,
      deserializeCamera data with
  | some a, some b, some c, some d, some e, some f, some g =>
      some ⟨a.1, b.1, c.1, d.1, e.1, f.1, some g.1⟩
  | _, _, _, _, _, _, _ => none

/-- `LaserSensorsVeh`: the vehicle's lidar group, field order `LEFT, TOP,
RIGHT, REAR`. -/
structure LaserSensorsVeh where
  LEFT : Lidar
  TOP : Lidar
  RIGHT : Lidar
  REAR : Option Lidar
deriving DecidableEq, Repr

/-- `LaserSensorsVeh.__init__`: default lidars, `REAR = None`. -/
def LaserSensorsVeh.default : LaserSensorsVeh :=
  ⟨Lidar.default, Lidar.default, Lidar.default, none⟩

/-- `LaserSensorsVeh.to_bytes`. -/
def LaserSensorsVeh.to_bytes (r : LaserSensorsVeh) : Bytes :=
  List.flatten ([some r.LEFT, some r.TOP, some r.RIGHT, r.REAR].map serializeOptLidar)

/-- `LaserSensorsVeh.from_bytes`: same non-advancing loop as the camera
group, with `deserialize(data, Lidar)`. -/
def LaserSensorsVeh.from_bytes (data : Bytes) : Option LaserSensorsVeh :=
  match deserializeLidar data, deserializeLidar data, deserializeLidar data,
      deserializeLidar data with
  | some a, some b, some c, some d => some ⟨a.1, b.1, c.1, some d.1⟩
  | _, _, _, _ => none

/-- `VisionSensorsTow`: the tower's camera group, field order `VIEW_1,
VIEW_2`. -/
structure VisionSensorsTow where
  VIEW_1 : Camera
  VIEW_2 : Camera
deriving DecidableEq, Repr

/-- `VisionSensorsTow.__init__`. -/
def VisionSensorsTow.default : VisionSensorsTow := ⟨Camera.default, Camera.default⟩

/-- `VisionSensorsTow.to_bytes`. -/
def VisionSensorsTow.to_bytes (r : VisionSensorsTow) : Bytes :=
  List.flatten ([r.VIEW_1, r.VIEW_2].map serializeCamera)

/-- `VisionSensorsTow.from_bytes`: non-advancing loop over the two views. -/
def VisionSensorsTow.from_bytes (data : Bytes) : Option VisionSensorsTow :=
  match deserializeCamera data, deserializeCamera data with
  | some a, some b => some ⟨a.1, b.1⟩
  | _, _ => none

/-- `LaserSensorsTow`: the tower's lidar group, field order `VIEW_1,
VIEW_2, TOP`. -/
structure LaserSensorsTow where
  VIEW_1 : Lidar
  VIEW_2 : Lidar
  TOP : Lidar
deriving DecidableEq, Repr

/-- `LaserSensorsTow.__init__`. -/
def LaserSensorsTow.default : LaserSensorsTow :=
  ⟨Lidar.default, Lidar.default, Lidar.default⟩

/-- `LaserSensorsTow.to_bytes`. -/
def LaserSensorsTow.to_bytes (r : LaserSensorsTow) : Bytes :=
  List.flatten ([r.VIEW_1, r.VIEW_2, r.TOP].map serializeLidar)

/-- `LaserSensorsTow.from_bytes`: non-advancing loop over the three views. -/
def LaserSensorsTow.from_bytes (data : Bytes) : Option LaserSensorsTow :=
  match deserializeLidar data, deserializeLidar data, deserializeLidar data with
  | some a, some b, some c => some ⟨a.1, b.1, c.1⟩
  | _, _, _ => none

/-- A `from_bytes` variant whose attribute list swaps the first two entries
(`VIEW_2` before `VIEW_1`), the decoder-side order swap of the spec's
order-sensitivity test; otherwise byte-for-byte the source's loop. -/
def LaserSensorsTow.from_bytes_swapped (data : Bytes) : Option LaserSensorsTow :=
  match deserializeLidar data, deserializeLidar data, deserializeLidar data with
  | some b, some a, some c => some ⟨a.1, b.1, c.1⟩
  | _, _, _ => none

/-- `Tower` agent record: camera group, lidar group, one extra GNSS. -/
structure Tower where
  cameras : VisionSensorsTow
  lidars : LaserSensorsTow
  GNSS : GNSS
deriving DecidableEq, Repr

/-- `Tower.__init__`: default groups, `GNSS(name="C099-F9P")`. -/
def Tower.default : Tower :=
  ⟨VisionSensorsTow.default, LaserSensorsTow.default, ⟨nameC099F9P⟩⟩

/-- `Tower.to_bytes`: `cameras.to_bytes() + lidars.to_bytes() +
serialize(self.GNSS)`. -/
def Tower.to_bytes (t : Tower) : Bytes :=
  t.cameras.to_bytes ++ t.lidars.to_bytes ++ serializeGNSS t.GNSS

/-- `Tower.from_bytes`: each group and the GNSS are decoded from the same
un-advanced `data` buffer (the source never re-binds `data`). -/
def Tower.from_bytes (data : Bytes) : Option Tower :=
  match VisionSensorsTow.from_bytes data, LaserSensorsTow.from_bytes data,
      deserializeGNSS data with
  | some cams, some lids, some g => some ⟨cams, lids, g.1⟩
  | _, _, _ => none

/-- `Vehicle` agent record: camera group, lidar group, extra IMU, GNSS and
odometry leaves. -/
structure Vehicle where
  cameras : VisionSensorsVeh
  lidars : LaserSensorsVeh
  IMU : IMU
  GNSS : GNSS
  odometry : Odometry
deriving DecidableEq, Repr

/-- `Vehicle.__init__`: default groups, named IMU/GNSS, default odometry. -/
def Vehicle.default : Vehicle :=
  ⟨VisionSensorsVeh.default, LaserSensorsVeh.default,
   ⟨nameMicrostrain⟩, ⟨nameMicrostrain⟩, Odometry.default⟩

/-- `Vehicle.to_bytes`: `cameras.to_bytes() + lidars.to_bytes() +
serialize(self.IMU) + serialize(self.GNSS) + obj_to_bytes(self.odometry)`. -/
def Vehicle.to_bytes (v : Vehicle) : Bytes :=
  v.cameras.to_bytes ++ v.lidars.to_bytes ++ serializeIMU v.IMU ++
    serializeGNSS v.GNSS ++ obj_to_bytes v.odometry

/-- `Vehicle.from_bytes`: the groups and the IMU all read the original
`data` (it is only re-bound by the IMU line, after the IMU was already
decoded from the start of the buffer); the GNSS reads the remainder the
IMU returned, and `obj_from_bytes` the remainder the GNSS returned. -/
def Vehicle.from_bytes (data : Bytes) : Option Vehicle :=
  match VisionSensorsVeh.from_bytes data, LaserSensorsVeh.from_bytes data,
      deserializeIMU data with
  | some cams, some lids, some imuR =>
      match deserializeGNSS imuR.2 with
      | some gnssR =>
          match obj_from_bytes gnssR.2 with
          | some odo => some ⟨cams, lids, imuR.1, gnssR.1, odo⟩
          | none => none
      | none => none
  | _, _, _ => none

/-- Concrete well-formed vehicle camera group with pairwise-distinct slots
and the optional `REAR` slot present. -/
def rVis : VisionSensorsVeh :=
  ⟨⟨[1]⟩, ⟨[2]⟩, ⟨[3]⟩, ⟨[4]⟩, ⟨[5]⟩, ⟨[6]⟩, some ⟨[7]⟩⟩

/-- Concrete tower lidar group with pairwise-distinct slots. -/
def rLas : LaserSensorsTow := ⟨⟨[11]⟩, ⟨[12]⟩, ⟨[13]⟩⟩

/-- Python's `str.upper()` on ASCII byte strings (strings are modelled as
byte lists throughout this development). -/
def pyUpper (s : Bytes) : Bytes :=
  s.map fun b => if 97 ≤ b ∧ b ≤ 122 then b - 32 else b

/-- ASCII bytes of the format string PNG. -/
def strPNG : Bytes := [80, 78, 71]

/-- ASCII bytes of the format string JPEG. -/
def strJPEG : Bytes := [74, 80, 69, 71]

/-- The image-save format dispatch of
`aeifdataset/utils/image_functions.py` (`save_image`): the extension is
`jpg` exactly when `format.upper() == 'JPEG'` and `png` otherwise, the
file name is the image's embedded timestamp plus suffix, a dot and the
extension, and any format whose upper-casing is neither `JPEG` nor `PNG`
raises before any file is written (modelled as `none`). -/
def save_image_file (timestamp sfx fmt : Bytes) : Option Bytes :=
  let ext := if pyUpper fmt = strJPEG then [106, 112, 103] else [112, 110, 103]
  let output_file := timestamp ++ sfx ++ [46] ++ ext
  if pyUpper fmt = strJPEG then some output_file
  else if pyUpper fmt = strPNG then some output_file
  else none

/-- C1: the composite round-trip invariant fails on the code: for the
well-formed `rVis` (all optional slots present), decoding the bytes
produced by encoding does not reproduce the record — the non-advancing
`from_bytes` loop fills every slot with the first slot's decoding. -/
theorem composite_roundtrip_fails :
    VisionSensorsVeh.from_bytes (VisionSensorsVeh.to_bytes rVis) ≠ some rVis := by
  decide

/-- C2: slot decodes do not advance a shared cursor: decoding the encoding
of `rVis` yields a record whose every slot holds `rVis`'s first slot value
`⟨[1]⟩` — all seven `deserialize` calls started at offset 0, so the
second slot's decode did not begin after the first slot's bytes. -/
theorem slot_decodes_share_offset :
    VisionSensorsVeh.from_bytes (VisionSensorsVeh.to_bytes rVis)
      = some ⟨⟨[1]⟩, ⟨[1]⟩, ⟨[1]⟩, ⟨[1]⟩, ⟨[1]⟩, ⟨[1]⟩, some ⟨[1]⟩⟩ ∧
    rVis.FRONT_LEFT ≠ rVis.BACK_LEFT := by
  decide

/-- C3: the agent round-trip fails on the code for all-default agents:
both `Tower` and `Vehicle` pass the same un-advanced buffer to each group
decode, so the laser group tries to decode camera bytes and the whole
decode aborts instead of reproducing the agent. -/
theorem agent_roundtrip_fails :
    Tower.from_bytes (Tower.to_bytes Tower.default) = none ∧
    Vehicle.from_bytes (Vehicle.to_bytes Vehicle.default) = none := by
  decide

/-- C4: agent encoding is the concatenation of the vision group bytes,
then the laser group bytes, then the declared extra leaf sensors in
declared order (IMU, GNSS, odometry for `Vehicle`; GNSS for `Tower`). -/
theorem agent_encode_concat (v : Vehicle) (t : Tower) :
    Vehicle.to_bytes v =
      v.cameras.to_bytes ++ (v.lidars.to_bytes ++ (serializeIMU v.IMU ++
        (serializeGNSS v.GNSS ++ obj_to_bytes v.odometry))) ∧
    Tower.to_bytes t =
      t.cameras.to_bytes ++ (t.lidars.to_bytes ++ serializeGNSS t.GNSS) := by
  constructor
  · simp [Vehicle.to_bytes, List.append_assoc]
  · simp [Tower.to_bytes, List.append_assoc]

/-- C5: absent-optional handling fails on the code: encoding the default
`VisionSensorsVeh` (whose `REAR` is `None`) and decoding yields a record
whose `REAR` slot holds a present decoded camera (`some ⟨[]⟩`), not one
recognized as absent. -/
theorem absent_rear_not_restored :
    VisionSensorsVeh.default.REAR = none ∧
    VisionSensorsVeh.from_bytes (VisionSensorsVeh.to_bytes VisionSensorsVeh.default)
      = some ⟨⟨[]⟩, ⟨[]⟩, ⟨[]⟩, ⟨[]⟩, ⟨[]⟩, ⟨[]⟩, some ⟨[]⟩⟩ := by
  decide

/-- C6: truncation is not detected: the 2-byte buffer `[0, 0]` (a single
default-camera encoding) is shorter than even the shortest 7-slot
`VisionSensorsVeh` encoding, yet `from_bytes` silently returns a fully
populated record instead of failing. -/
theorem truncated_decode_returns_record :
    ([0, 0] : Bytes).length < (VisionSensorsVeh.to_bytes VisionSensorsVeh.default).length ∧
    VisionSensorsVeh.from_bytes [0, 0]
      = some ⟨⟨[]⟩, ⟨[]⟩, ⟨[]⟩, ⟨[]⟩, ⟨[]⟩, ⟨[]⟩, some ⟨[]⟩⟩ := by
  decide

/-- C7: encode of a composite record never fails and returns exactly the
concatenation of the per-slot leaf encodings in declared order, for every
record — including ones whose optional `REAR` slot is `None`. -/
theorem composite_encode_concat (r : VisionSensorsVeh) (l : LaserSensorsVeh) :
    VisionSensorsVeh.to_bytes r =
      serializeOptCamera (some r.BACK_LEFT) ++ serializeOptCamera (some r.FRONT_LEFT) ++
      serializeOptCamera (some r.STEREO_LEFT) ++ serializeOptCamera (some r.STEREO_RIGHT) ++
      serializeOptCamera (some r.FRONT_RIGHT) ++ serializeOptCamera (some r.BACK_RIGHT) ++
      serializeOptCamera r.REAR ∧
    LaserSensorsVeh.to_bytes l =
      serializeOptLidar (some l.LEFT) ++ serializeOptLidar (some l.TOP) ++
      serializeOptLidar (some l.RIGHT) ++ serializeOptLidar l.REAR := by
  constructor
  · simp [VisionSensorsVeh.to_bytes, List.append_assoc]
  · simp [LaserSensorsVeh.to_bytes, List.append_assoc]

/-- C8: order sensitivity: decoding the encoding of the tower lidar group
`rLas` with a decoder whose declared field order swaps the first two
slots produces a result different from the original record, so the
round-trip property fails when encoder and decoder orders differ. -/
theorem swapped_order_decode_differs :
    LaserSensorsTow.from_bytes_swapped (LaserSensorsTow.to_bytes rLas) ≠ some rLas := by
  decide

/-- C10: whenever a vehicle composite `from_bytes` accepts a buffer, the
returned record's optional `REAR` slot holds a present decoded sensor
value — decode never reconstructs an absent optional field. -/
theorem decode_populates_rear (d e : Bytes) (rv : VisionSensorsVeh) (rl : LaserSensorsVeh)
    (hv : VisionSensorsVeh.from_bytes d = some rv)
    (hl : LaserSensorsVeh.from_bytes e = some rl) :
    rv.REAR.isSome = true ∧ rl.REAR.isSome = true := by
  constructor
  · cases h : deserializeCamera d with
    | none => rw [VisionSensorsVeh.from_bytes, h] at hv; simp at hv
    | some p =>
        rw [VisionSensorsVeh.from_bytes, h] at hv
        simp only [Option.some.injEq] at hv
        rw [← hv]
        rfl
  · cases h : deserializeLidar e with
    | none => rw [LaserSensorsVeh.from_bytes, h] at hl; simp at hl
    | some p =>
        rw [LaserSensorsVeh.from_bytes, h] at hl
        simp only [Option.some.injEq] at hl
        rw [← hl]
        rfl

/-- Witness for C10 at the concrete buffers `[0, 0]` and `[1, 0]`. -/
theorem decode_populates_rear_w :
    (⟨⟨[]⟩, ⟨[]⟩, ⟨[]⟩, ⟨[]⟩, ⟨[]⟩, ⟨[]⟩, some ⟨[]⟩⟩ : VisionSensorsVeh).REAR.isSome = true ∧
    (⟨⟨[]⟩, ⟨[]⟩, ⟨[]⟩, some ⟨[]⟩⟩ : LaserSensorsVeh).REAR.isSome = true :=
  decode_populates_rear [0, 0] [1, 0]
    ⟨⟨[]⟩, ⟨[]⟩, ⟨[]⟩, ⟨[]⟩, ⟨[]⟩, ⟨[]⟩, some ⟨[]⟩⟩
    ⟨⟨[]⟩, ⟨[]⟩, ⟨[]⟩, some ⟨[]⟩⟩ (by decide) (by decide)

/-- C9: `save_image` fails (writing no file) exactly on the format strings
whose upper-casing is neither PNG nor JPEG, and for PNG/JPEG it writes a
file named by the image's embedded timestamp plus suffix and extension. -/
theorem save_image_format_dispatch (ts sfx fmt : Bytes) :
    (pyUpper fmt ≠ strPNG → pyUpper fmt ≠ strJPEG → save_image_file ts sfx fmt = none) ∧
    (pyUpper fmt = strPNG →
      save_image_file ts sfx fmt = some (ts ++ sfx ++ [46] ++ [112, 110, 103])) ∧
    (pyUpper fmt = strJPEG →
      save_image_file ts sfx fmt = some (ts ++ sfx ++ [46] ++ [106, 112, 103])) := by
  refine ⟨fun h1 h2 => ?_, fun h => ?_, fun h => ?_⟩
  · simp [save_image_file, h1, h2]
  · simp [save_image_file, h, strPNG, strJPEG]
  · simp [save_image_file, h]

/-- Witness for C9: the unsupported format BMP writes no file, while png
(case-insensitively PNG) writes the timestamp-plus-suffix named .png file. -/
theorem save_image_format_dispatch_w :
    save_image_file [49, 55] [95, 97] [66, 77, 80] = none ∧
    save_image_file [49, 55] [95, 97] [112, 110, 103]
      = some ([49, 55] ++ [95, 97] ++ [46] ++ [112, 110, 103]) :=
  ⟨(save_image_format_dispatch [49, 55] [95, 97] [66, 77, 80]).1 (by decide) (by decide),
   (save_image_format_dispatch [49, 55] [95, 97] [112, 110, 103]).2.1 (by decide)⟩

end AEIF
